import Mathlib

/-!
Verification of the Nexus project structure verifier (`verify.py`).

The script is embedded shallowly: the filesystem is a snapshot mapping
each absolute path to what it resolves to, the process state (`World`)
carries the snapshot, the current working directory, the list of strings
printed so far and the list of network requests issued (none are).
Every Python function of the script becomes a pure Lean function on
`World`; `main` returns the final world together with the exit code
passed to `sys.exit`.
-/

namespace Verify

/-- What a filesystem path resolves to: a regular file, a directory,
nothing at all, or an entry that cannot be examined (permission error,
symlink loop, and similar OS errors, on which `os.path.isfile` and
`os.path.isdir` return `False` rather than raising). -/
inductive EntryKind where
  | file
  | dir
  | absent
  | inaccessible
deriving DecidableEq

/-- A filesystem snapshot: what each absolute path resolves to. -/
abbrev FS := String → EntryKind

/-- Process state visible to the script: the (immutable) filesystem
snapshot, the current working directory, everything printed so far
(one list element per `print` call), and the network requests issued
(the script issues none, so nothing ever appends to `net`). -/
@[ext]
structure World where
  fs : FS
  cwd : String
  out : List String
  net : List String

/-- Resolution of a possibly relative path against the current working
directory, as `os.path.isfile` / `os.path.isdir` do. -/
def resolve (cwd p : String) : String :=
  if p.startsWith "/" then p else cwd ++ "/" ++ p

/-- Embedding of `os.path.isfile`: true exactly when the path resolves
to a regular file; errors and absence both give `false`. -/
def isfile (fs : FS) (cwd p : String) : Bool :=
  decide (fs (resolve cwd p) = EntryKind.file)

/-- Embedding of `os.path.isdir`: true exactly when the path resolves
to a directory; errors and absence both give `false`. -/
def isdir (fs : FS) (cwd p : String) : Bool :=
  decide (fs (resolve cwd p) = EntryKind.dir)

/-- Embedding of `print`: appends the printed string to standard output. -/
def printOut (w : World) (s : String) : World :=
  { w with out := w.out ++ [s] }

/-- Embedding of `os.chdir`. -/
def os_chdir (w : World) (p : String) : World :=
  { w with cwd := p }

/-- The ANSI color codes of `verify.py`. -/
def GREEN : String := "\x1b[92m"

/-- Red ANSI color code. -/
def RED : String := "\x1b[91m"

/-- Yellow ANSI color code (defined but unused by the script). -/
def YELLOW : String := "\x1b[93m"

/-- ANSI reset code. -/
def RESET : String := "\x1b[0m"

/-- Success line printed by `check_file`. -/
def fileOkLine (name : String) : String :=
  GREEN ++ "✓" ++ RESET ++ " " ++ name

/-- Failure line printed by `check_file`. -/
def fileFailLine (name : String) : String :=
  RED ++ "✗" ++ RESET ++ " " ++ name ++ " (NOT FOUND)"

/-- Success line printed by `check_dir`. -/
def dirOkLine (name : String) : String :=
  GREEN ++ "✓" ++ RESET ++ " " ++ name ++ "/"

/-- Failure line printed by `check_dir`. -/
def dirFailLine (name : String) : String :=
  RED ++ "✗" ++ RESET ++ " " ++ name ++ "/ (NOT FOUND)"

/-- Embedding of `check_file(path, name)`: prints a success line and
returns `True` if the path is a regular file, otherwise prints a
failure line and returns `False`. -/
def check_file (w : World) (path name : String) : World × Bool :=
  if isfile w.fs w.cwd path then
    (printOut w (fileOkLine name), true)
  else
    (printOut w (fileFailLine name), false)

/-- Embedding of `check_dir(path, name)`: prints a success line and
returns `True` if the path is a directory, otherwise prints a failure
line and returns `False`. -/
def check_dir (w : World) (path name : String) : World × Bool :=
  if isdir w.fs w.cwd path then
    (printOut w (dirOkLine name), true)
  else
    (printOut w (dirFailLine name), false)

/-- The `checks` dictionary of `verify.py`: categories in insertion
order, each with its ordered list of `(path, display_name)` entries. -/
def checks : List (String × List (String × String)) :=
  [("Documentation",
    [("README.md", "README"),
     ("PROJECT_SPEC.md", "Project Specification"),
     ("SETUP.md", "Setup Guide"),
     ("STATUS.md", "Implementation Status"),
     ("SUMMARY.md", "Project Summary")]),
   ("Backend",
    [("backend/go.mod", "Go modules"),
     ("backend/.env.example", ".env example"),
     ("backend/cmd/api/main.go", "API Server"),
     ("backend/cmd/ws/main.go", "WebSocket Server"),
     ("backend/cmd/media/main.go", "Media Server"),
     ("backend/internal/models/types.go", "Data models"),
     ("backend/internal/database/cassandra.go", "Cassandra client"),
     ("backend/internal/services/nats_services.go", "NATS services"),
     ("backend/internal/handlers/auth.go", "Auth handler"),
     ("backend/internal/cache/memory.go", "Memory cache")]),
   ("Frontend",
    [("frontend/app.json", "Expo config"),
     ("frontend/package.json", "Package config"),
     ("frontend/tsconfig.json", "TypeScript config"),
     ("frontend/app/store/appState.ts", "State management"),
     ("frontend/app/services/api.ts", "API client"),
     ("frontend/app/hooks/useAppState.ts", "Custom hooks"),
     ("frontend/app/screens/LoginScreen.tsx", "Login screen"),
     ("frontend/app/screens/ChatScreen.tsx", "Chat screen"),
     ("frontend/app/screens/TasksScreen.tsx", "Tasks screen"),
     ("frontend/app/components/MessageList.tsx", "Message list"),
     ("frontend/app/components/MessageInput.tsx", "Message input")]),
   ("Infrastructure",
    [("docker-compose.yml", "Docker Compose"),
     ("infrastructure/cassandra/init.cql", "Cassandra schema"),
     ("infrastructure/turn/turnserver.conf", "TURN config")]),
   ("Automation",
    [("Makefile", "Makefile"),
     ("setup.sh", "Setup script")])]

/-- The `dirs` list of `verify.py`. -/
def dirs : List (String × String) :=
  [("backend/cmd", "Backend commands"),
   ("backend/internal", "Backend internal"),
   ("frontend/app/screens", "Frontend screens"),
   ("frontend/app/components", "Frontend components"),
   ("infrastructure", "Infrastructure")]

/-- The separator line `"─" * 50`. -/
def dashLine : String := String.mk (List.replicate 50 '─')

/-- The separator line `"=" * 50`. -/
def eqLine : String := String.mk (List.replicate 50 '=')

/-- Accumulator of the main loop: the world plus the three locals
`all_passed`, `total_files`, `checked_files` of `main`. -/
structure Acc where
  w : World
  all_passed : Bool
  total_files : Nat
  checked_files : Nat

/-- One iteration of the per-entry loop body of `main`: increment
`total_files`, run the check, and either increment `checked_files`
or clear `all_passed`. -/
def processEntry (check : World → String → String → World × Bool)
    (a : Acc) (e : String × String) : Acc :=
  let a1 : Acc := { a with total_files := a.total_files + 1 }
  let r := check a1.w e.1 e.2
  if r.2 then { a1 with w := r.1, checked_files := a1.checked_files + 1 }
  else { a1 with w := r.1, all_passed := false }

/-- One iteration of the per-category loop of `main`: print the
category header and the separator, then process each file entry. -/
def processCategory (a : Acc) (c : String × List (String × String)) : Acc :=
  let w1 := printOut a.w ("\n📂 " ++ c.1 ++ ":")
  let w2 := printOut w1 dashLine
  c.2.foldl (processEntry check_file) { a with w := w2 }

/-- The checking phase of `main`: all categories of file entries,
then the directories section. -/
def runChecks (w : World) : Acc :=
  let a0 : Acc := { w := w, all_passed := true, total_files := 0, checked_files := 0 }
  let a1 := checks.foldl processCategory a0
  let w1 := printOut a1.w "\n📁 Directories:"
  let w2 := printOut w1 dashLine
  dirs.foldl (processEntry check_dir) { a1 with w := w2 }

/-- Embedding of `Path(p).parent`: the directory containing `p`. -/
def parentDir (p : String) : String :=
  let parts := p.splitOn "/"
  if parts.length ≤ 1 then "." else String.intercalate "/" parts.dropLast

/-- The summary line printed by `main`. -/
def summaryLine (checked total : Nat) : String :=
  "\n📊 Summary: " ++ toString checked ++ "/" ++ toString total ++ " items verified\n"

/-- The lines printed on success, in order, followed by `return 0`. -/
def successBanner : List String :=
  [GREEN ++ "✓ All files and directories present!" ++ RESET ++ "\n",
   "🚀 Next steps:",
   "   1. make setup     # Setup development environment",
   "   2. make build     # Build services",
   "   3. make run       # Run all services",
   "   4. make docker    # Start Docker containers",
   "\n✨ Or start coding directly!\n"]

/-- The lines printed on failure, in order, followed by `return 1`. -/
def failureBanner : List String :=
  [RED ++ "✗ Some items are missing!" ++ RESET ++ "\n",
   "Please ensure all required files exist.\n"]

/-- Sequence of `print` calls. -/
def printAll (w : World) (ls : List String) : World :=
  ls.foldl printOut w

/-- The title print, the `os.chdir(Path(__file__).parent)` and the
whole checking phase of `main`, returning the loop accumulator. -/
def runState (scriptPath : String) (w0 : World) : Acc :=
  runChecks (os_chdir (printOut w0 "\n🔍 Nexus Project Structure Verification\n")
    (parentDir scriptPath))

/-- Embedding of `main()`: `scriptPath` is `__file__`; the result is
the final world and the exit code handed to `sys.exit`. -/
def main (scriptPath : String) (w0 : World) : World × Nat :=
  let a := runState scriptPath w0
  let w3 := printOut a.w ("\n" ++ eqLine)
  let w4 := printOut w3 (summaryLine a.checked_files a.total_files)
  if a.all_passed then (printAll w4 successBanner, 0)
  else (printAll w4 failureBanner, 1)

/-! Characterization lemmas. -/

@[simp] theorem printOut_fs (w : World) (s : String) : (printOut w s).fs = w.fs := rfl

@[simp] theorem printOut_cwd (w : World) (s : String) : (printOut w s).cwd = w.cwd := rfl

@[simp] theorem printOut_net (w : World) (s : String) : (printOut w s).net = w.net := rfl

@[simp] theorem printOut_out (w : World) (s : String) : (printOut w s).out = w.out ++ [s] := rfl

@[simp] theorem os_chdir_fs (w : World) (p : String) : (os_chdir w p).fs = w.fs := rfl

@[simp] theorem os_chdir_cwd (w : World) (p : String) : (os_chdir w p).cwd = p := rfl

@[simp] theorem os_chdir_net (w : World) (p : String) : (os_chdir w p).net = w.net := rfl

@[simp] theorem os_chdir_out (w : World) (p : String) : (os_chdir w p).out = w.out := rfl

/-- The line `check_file` prints for a given filesystem state. -/
def fileLine (fs : FS) (cwd p n : String) : String :=
  if isfile fs cwd p then fileOkLine n else fileFailLine n

/-- The line `check_dir` prints for a given filesystem state. -/
def dirLine (fs : FS) (cwd p n : String) : String :=
  if isdir fs cwd p then dirOkLine n else dirFailLine n

theorem check_file_eq (w : World) (p n : String) :
    check_file w p n = (printOut w (fileLine w.fs w.cwd p n), isfile w.fs w.cwd p) := by
  unfold check_file fileLine
  cases h : isfile w.fs w.cwd p <;> simp [h]

theorem check_dir_eq (w : World) (p n : String) :
    check_dir w p n = (printOut w (dirLine w.fs w.cwd p n), isdir w.fs w.cwd p) := by
  unfold check_dir dirLine
  cases h : isdir w.fs w.cwd p <;> simp [h]

theorem foldl_processEntry_spec
    (check : World → String → String → World × Bool)
    (pred : FS → String → String → Bool)
    (line : FS → String → String → String → String)
    (hcheck : ∀ w p n, check w p n = (printOut w (line w.fs w.cwd p n), pred w.fs w.cwd p))
    (es : List (String × String)) (a : Acc) :
    (es.foldl (processEntry check) a).w.fs = a.w.fs ∧
    (es.foldl (processEntry check) a).w.cwd = a.w.cwd ∧
    (es.foldl (processEntry check) a).w.net = a.w.net ∧
    (es.foldl (processEntry check) a).w.out
      = a.w.out ++ es.map (fun e => line a.w.fs a.w.cwd e.1 e.2) ∧
    (es.foldl (processEntry check) a).total_files = a.total_files + es.length ∧
    (es.foldl (processEntry check) a).checked_files
      = a.checked_files + es.countP (fun e => pred a.w.fs a.w.cwd e.1) ∧
    (es.foldl (processEntry check) a).all_passed
      = (a.all_passed && es.all (fun e => pred a.w.fs a.w.cwd e.1)) := by
  induction es generalizing a with
  | nil => simp
  | cons e es ih =>
    have hstep : processEntry check a e =
        { w := printOut a.w (line a.w.fs a.w.cwd e.1 e.2),
          all_passed := a.all_passed && pred a.w.fs a.w.cwd e.1,
          total_files := a.total_files + 1,
          checked_files := a.checked_files + (if pred a.w.fs a.w.cwd e.1 then 1 else 0) } := by
      simp only [processEntry, hcheck]
      cases h : pred a.w.fs a.w.cwd e.1 <;> simp [h]
    obtain ⟨h1, h2, h3, h4, h5, h6, h7⟩ := ih (processEntry check a e)
    rw [hstep] at h1 h2 h3 h4 h5 h6 h7
    simp only [printOut_fs, printOut_cwd, printOut_net, printOut_out] at h1 h2 h3 h4 h5 h6 h7
    rw [List.foldl_cons, hstep]
    refine ⟨h1, h2, h3, ?_, ?_, ?_, ?_⟩
    · rw [h4]; simp [List.append_assoc]
    · rw [h5]; simp; omega
    · rw [h6]; cases h : pred a.w.fs a.w.cwd e.1 <;> simp [h, List.countP_cons] <;> omega
    · rw [h7]; simp [List.all_cons, Bool.and_assoc]

/-- The console output one category produces: header, separator, then
one result line per entry, in declaration order. -/
def catOutput (fs : FS) (cwd : String) (c : String × List (String × String)) : List String :=
  ("\n📂 " ++ c.1 ++ ":") :: dashLine :: c.2.map (fun e => fileLine fs cwd e.1 e.2)

theorem processCategory_spec (a : Acc) (c : String × List (String × String)) :
    (processCategory a c).w.fs = a.w.fs ∧
    (processCategory a c).w.cwd = a.w.cwd ∧
    (processCategory a c).w.net = a.w.net ∧
    (processCategory a c).w.out = a.w.out ++ catOutput a.w.fs a.w.cwd c ∧
    (processCategory a c).total_files = a.total_files + c.2.length ∧
    (processCategory a c).checked_files
      = a.checked_files + c.2.countP (fun e => isfile a.w.fs a.w.cwd e.1) ∧
    (processCategory a c).all_passed
      = (a.all_passed && c.2.all (fun e => isfile a.w.fs a.w.cwd e.1)) := by
  unfold processCategory
  obtain ⟨h1, h2, h3, h4, h5, h6, h7⟩ :=
    foldl_processEntry_spec check_file isfile fileLine check_file_eq c.2
      { a with w := printOut (printOut a.w ("\n📂 " ++ c.1 ++ ":")) dashLine }
  simp only [printOut_fs, printOut_cwd, printOut_net, printOut_out] at h1 h2 h3 h4 h5 h6 h7
  exact ⟨h1, h2, h3, by rw [h4]; simp [catOutput, List.append_assoc], h5, h6, h7⟩

theorem foldl_processCategory_spec
    (cats : List (String × List (String × String))) (a : Acc) :
    (cats.foldl processCategory a).w.fs = a.w.fs ∧
    (cats.foldl processCategory a).w.cwd = a.w.cwd ∧
    (cats.foldl processCategory a).w.net = a.w.net ∧
    (cats.foldl processCategory a).w.out
      = a.w.out ++ (cats.map (catOutput a.w.fs a.w.cwd)).flatten ∧
    (cats.foldl processCategory a).total_files
      = a.total_files + (cats.map (fun c => c.2.length)).sum ∧
    (cats.foldl processCategory a).checked_files
      = a.checked_files
        + (cats.map (fun c => c.2.countP (fun e => isfile a.w.fs a.w.cwd e.1))).sum ∧
    (cats.foldl processCategory a).all_passed
      = (a.all_passed && cats.all (fun c => c.2.all (fun e => isfile a.w.fs a.w.cwd e.1))) := by
  induction cats generalizing a with
  | nil => simp
  | cons c cats ih =>
    obtain ⟨g1, g2, g3, g4, g5, g6, g7⟩ := processCategory_spec a c
    obtain ⟨h1, h2, h3, h4, h5, h6, h7⟩ := ih (processCategory a c)
    rw [g1] at h1 h4 h6 h7
    rw [g2] at h2 h4 h6 h7
    rw [g3] at h3
    rw [List.foldl_cons]
    refine ⟨h1, h2, h3, ?_, ?_, ?_, ?_⟩
    · rw [h4, g4]; simp [List.append_assoc]
    · rw [h5, g5]; simp; omega
    · rw [h6, g6]; simp; omega
    · rw [h7, g7]; simp [List.all_cons, Bool.and_assoc]

/-- All file entries of the manifest, in declaration order. -/
def manifestFileEntries : List (String × String) := (checks.map Prod.snd).flatten

/-- The number of manifest entries (file entries and directory entries)
whose existence predicate holds in the given filesystem state. -/
def passedCount (fs : FS) (cwd : String) : Nat :=
  manifestFileEntries.countP (fun e => isfile fs cwd e.1)
    + dirs.countP (fun e => isdir fs cwd e.1)

/-- The number of entries declared in the manifest. -/
def totalCount : Nat := manifestFileEntries.length + dirs.length

/-- Whether every manifest entry (file or directory) is found. -/
def allFound (fs : FS) (cwd : String) : Bool :=
  manifestFileEntries.all (fun e => isfile fs cwd e.1)
    && dirs.all (fun e => isdir fs cwd e.1)

/-- The console output of the checking phase: each category section in
declaration order, then the directories section. -/
def checksOutput (fs : FS) (cwd : String) : List String :=
  (checks.map (catOutput fs cwd)).flatten
    ++ "\n📁 Directories:" :: dashLine :: dirs.map (fun e => dirLine fs cwd e.1 e.2)

/-- The checking phase over an arbitrary manifest: categories of file
entries, then a list of directory entries. `runChecks` is this applied
to the concrete `checks` and `dirs`. -/
def runChecksOver (cats : List (String × List (String × String)))
    (ds : List (String × String)) (w : World) : Acc :=
  let a0 : Acc := { w := w, all_passed := true, total_files := 0, checked_files := 0 }
  let a1 := cats.foldl processCategory a0
  let w1 := printOut a1.w "\n📁 Directories:"
  let w2 := printOut w1 dashLine
  ds.foldl (processEntry check_dir) { a1 with w := w2 }

theorem runChecks_eq_over (w : World) : runChecks w = runChecksOver checks dirs w := rfl

theorem runChecksOver_spec (cats : List (String × List (String × String)))
    (ds : List (String × String)) (w : World) :
    (runChecksOver cats ds w).w.fs = w.fs ∧
    (runChecksOver cats ds w).w.cwd = w.cwd ∧
    (runChecksOver cats ds w).w.net = w.net ∧
    (runChecksOver cats ds w).w.out
      = w.out ++ ((cats.map (catOutput w.fs w.cwd)).flatten
          ++ "\n📁 Directories:" :: dashLine :: ds.map (fun e => dirLine w.fs w.cwd e.1 e.2)) ∧
    (runChecksOver cats ds w).total_files
      = (cats.map (fun c => c.2.length)).sum + ds.length ∧
    (runChecksOver cats ds w).checked_files
      = (cats.map (fun c => c.2.countP (fun e => isfile w.fs w.cwd e.1))).sum
        + ds.countP (fun e => isdir w.fs w.cwd e.1) ∧
    (runChecksOver cats ds w).all_passed
      = (cats.all (fun c => c.2.all (fun e => isfile w.fs w.cwd e.1))
          && ds.all (fun e => isdir w.fs w.cwd e.1)) := by
  unfold runChecksOver
  obtain ⟨g1, g2, g3, g4, g5, g6, g7⟩ :=
    foldl_processCategory_spec cats
      { w := w, all_passed := true, total_files := 0, checked_files := 0 }
  obtain ⟨h1, h2, h3, h4, h5, h6, h7⟩ :=
    foldl_processEntry_spec check_dir isdir dirLine check_dir_eq ds
      { cats.foldl processCategory
          { w := w, all_passed := true, total_files := 0, checked_files := 0 } with
        w := printOut (printOut (cats.foldl processCategory
          { w := w, all_passed := true, total_files := 0, checked_files := 0 }).w
            "\n📁 Directories:") dashLine }
  simp only [printOut_fs, printOut_cwd, printOut_net, printOut_out] at h1 h2 h3 h4 h5 h6 h7
  rw [g1] at h1 h4 h6 h7
  rw [g2] at h2 h4 h6 h7
  rw [g3] at h3
  refine ⟨h1, h2, h3, ?_, ?_, ?_, ?_⟩
  · rw [h4, g4]; simp [List.append_assoc]
  · rw [h5, g5]; simp
  · rw [h6, g6]; simp
  · rw [h7, g7]; simp

set_option maxRecDepth 2000 in
theorem runChecks_spec (w : World) :
    (runChecks w).w.fs = w.fs ∧
    (runChecks w).w.cwd = w.cwd ∧
    (runChecks w).w.net = w.net ∧
    (runChecks w).w.out = w.out ++ checksOutput w.fs w.cwd ∧
    (runChecks w).total_files = totalCount ∧
    (runChecks w).checked_files = passedCount w.fs w.cwd ∧
    (runChecks w).all_passed = allFound w.fs w.cwd := by
  rw [runChecks_eq_over]
  obtain ⟨h1, h2, h3, h4, h5, h6, h7⟩ := runChecksOver_spec checks dirs w
  refine ⟨h1, h2, h3, ?_, ?_, ?_, ?_⟩
  · rw [h4]; rfl
  · rw [h5]
    simp only [totalCount, manifestFileEntries, List.length_flatten, List.map_map]
    rfl
  · rw [h6]
    simp only [passedCount, manifestFileEntries, List.countP_flatten, List.map_map]
    rfl
  · rw [h7]
    simp only [allFound, manifestFileEntries, List.all_flatten, List.map_map]
    rfl

/-- The complete console output of one run, as a function of the
filesystem snapshot and the script's directory. -/
def fullOutput (fs : FS) (root : String) : List String :=
  "\n🔍 Nexus Project Structure Verification\n"
    :: (checksOutput fs root
        ++ ("\n" ++ eqLine)
        :: summaryLine (passedCount fs root) totalCount
        :: (if allFound fs root then successBanner else failureBanner))

theorem runState_spec (sp : String) (w0 : World) :
    (runState sp w0).w.fs = w0.fs ∧
    (runState sp w0).w.cwd = parentDir sp ∧
    (runState sp w0).w.net = w0.net ∧
    (runState sp w0).w.out
      = w0.out ++ "\n🔍 Nexus Project Structure Verification\n"
          :: checksOutput w0.fs (parentDir sp) ∧
    (runState sp w0).total_files = totalCount ∧
    (runState sp w0).checked_files = passedCount w0.fs (parentDir sp) ∧
    (runState sp w0).all_passed = allFound w0.fs (parentDir sp) := by
  unfold runState
  obtain ⟨h1, h2, h3, h4, h5, h6, h7⟩ :=
    runChecks_spec (os_chdir (printOut w0 "\n🔍 Nexus Project Structure Verification\n")
      (parentDir sp))
  simp only [os_chdir_fs, os_chdir_cwd, os_chdir_net, os_chdir_out,
    printOut_fs, printOut_cwd, printOut_net, printOut_out] at h1 h2 h3 h4 h5 h6 h7
  exact ⟨h1, h2, h3, by rw [h4]; simp, h5, h6, h7⟩

theorem main_spec (sp : String) (w0 : World) :
    (main sp w0).1.fs = w0.fs ∧
    (main sp w0).1.cwd = parentDir sp ∧
    (main sp w0).1.net = w0.net ∧
    (main sp w0).1.out = w0.out ++ fullOutput w0.fs (parentDir sp) ∧
    (main sp w0).2 = (if allFound w0.fs (parentDir sp) then 0 else 1) := by
  obtain ⟨h1, h2, h3, h4, h5, h6, h7⟩ := runState_spec sp w0
  simp only [main]
  cases hap : allFound w0.fs (parentDir sp) with
  | true =>
    rw [h7, hap, if_pos rfl]
    simp only [printAll, successBanner, List.foldl_cons, List.foldl_nil]
    refine ⟨by simp [h1], by simp [h2], by simp [h3], ?_, by simp⟩
    simp only [printOut_out, h5, h6]
    rw [h4]
    simp [fullOutput, successBanner, failureBanner, hap, List.append_assoc]
  | false =>
    rw [h7, hap, if_neg Bool.false_ne_true]
    simp only [printAll, failureBanner, List.foldl_cons, List.foldl_nil]
    refine ⟨by simp [h1], by simp [h2], by simp [h3], ?_, by simp⟩
    simp only [printOut_out, h5, h6]
    rw [h4]
    simp [fullOutput, successBanner, failureBanner, hap, List.append_assoc]

theorem totalCount_eq : totalCount = 36 := rfl

theorem countP_le_manifest (fs : FS) (cwd : String) :
    manifestFileEntries.countP (fun e => isfile fs cwd e.1) ≤ manifestFileEntries.length ∧
    dirs.countP (fun e => isdir fs cwd e.1) ≤ dirs.length :=
  ⟨List.countP_le_length _, List.countP_le_length _⟩

theorem allFound_iff_passedCount (fs : FS) (cwd : String) :
    allFound fs cwd = true ↔ passedCount fs cwd = totalCount := by
  obtain ⟨b1, b2⟩ := countP_le_manifest fs cwd
  simp only [allFound, passedCount, totalCount, Bool.and_eq_true, List.all_eq_true,
    ← List.countP_eq_length]
  omega

/-! The claims. -/

/-- C1: the process exit code is exactly 0 when `all_passed` is true
(every manifest file entry and every directory entry found) and exactly 1
otherwise; no other exit code is possible. -/
theorem main_exit_code (sp : String) (w0 : World) :
    (main sp w0).2 = (if (runState sp w0).all_passed then 0 else 1) ∧
    ((main sp w0).2 = 0 ∨ (main sp w0).2 = 1) ∧
    ((main sp w0).2 = 0 ↔ (runState sp w0).all_passed = true) := by
  obtain ⟨-, -, -, -, h5⟩ := main_spec sp w0
  obtain ⟨-, -, -, -, -, -, h7⟩ := runState_spec sp w0
  rw [h5, h7]
  cases hap : allFound w0.fs (parentDir sp) <;> simp

/-- C2: after a run `total_files` equals the fixed manifest size 36
independently of the filesystem state, `checked_files` equals the number
of manifest entries whose existence predicate holds, and `all_passed` is
true iff `checked_files = total_files`. -/
theorem run_counters (sp : String) (w0 : World) :
    (runState sp w0).total_files = 36 ∧
    (runState sp w0).checked_files = passedCount w0.fs (parentDir sp) ∧
    ((runState sp w0).all_passed = true ↔
      (runState sp w0).checked_files = (runState sp w0).total_files) := by
  obtain ⟨-, -, -, -, h5, h6, h7⟩ := runState_spec sp w0
  refine ⟨by rw [h5]; rfl, h6, ?_⟩
  rw [h5, h6, h7]
  exact allFound_iff_passedCount w0.fs (parentDir sp)

/-- C3: `check_file` returns true and prints the success line exactly when
the path resolves to a regular file; otherwise it prints the failure line
and returns false, and being a total function it raises nothing, touching
neither the filesystem, the working directory nor the network. -/
theorem check_file_spec (w : World) (p n : String) :
    ((check_file w p n).2 = true ↔ w.fs (resolve w.cwd p) = EntryKind.file) ∧
    (check_file w p n).1.out
      = w.out ++ [if w.fs (resolve w.cwd p) = EntryKind.file then fileOkLine n
          else fileFailLine n] ∧
    (check_file w p n).1.fs = w.fs ∧ (check_file w p n).1.cwd = w.cwd ∧
    (check_file w p n).1.net = w.net := by
  rw [check_file_eq]
  unfold fileLine isfile
  by_cases h : w.fs (resolve w.cwd p) = EntryKind.file <;> simp [h]

/-- C4: `check_dir` returns true exactly when the path resolves to a
directory; in particular, a declared directory path that exists as a
regular file is reported missing (false, with the failure line). -/
theorem check_dir_spec (w : World) (p n : String) :
    ((check_dir w p n).2 = true ↔ w.fs (resolve w.cwd p) = EntryKind.dir) ∧
    (w.fs (resolve w.cwd p) = EntryKind.file →
      (check_dir w p n).2 = false ∧
      (check_dir w p n).1.out = w.out ++ [dirFailLine n]) := by
  rw [check_dir_eq]
  unfold dirLine isdir
  by_cases h : w.fs (resolve w.cwd p) = EntryKind.dir
  · refine ⟨by simp [h], fun hf => ?_⟩
    rw [hf] at h
    cases h
  · refine ⟨by simp [h], fun hf => by simp [h]⟩

theorem check_dir_spec_witness :
    (check_dir { fs := fun _ => EntryKind.file, cwd := "/b", out := [], net := [] }
        "backend/cmd" "Backend commands").2 = false ∧
    (check_dir { fs := fun _ => EntryKind.file, cwd := "/b", out := [], net := [] }
        "backend/cmd" "Backend commands").1.out = [] ++ [dirFailLine "Backend commands"] :=
  (check_dir_spec { fs := fun _ => EntryKind.file, cwd := "/b", out := [], net := [] }
    "backend/cmd" "Backend commands").2 rfl

/-- C5: the run prints the summary line built as
`<passed>/<total> items verified` from the two accumulated counters. -/
theorem main_summary_line (sp : String) (w0 : World) :
    summaryLine (runState sp w0).checked_files (runState sp w0).total_files
      ∈ (main sp w0).1.out := by
  obtain ⟨-, -, -, h4, -⟩ := main_spec sp w0
  obtain ⟨-, -, -, -, h5, h6, -⟩ := runState_spec sp w0
  rw [h4, h5, h6]
  simp [fullOutput]

/-- C6: the run is deterministic in the filesystem snapshot: two runs
against pointwise-equal snapshots print the same output and return the
same exit code, and the output is the fixed `fullOutput` list whose
result lines follow manifest declaration order. -/
theorem main_deterministic (sp c : String) (fs1 fs2 : FS)
    (h : ∀ p, fs1 p = fs2 p) :
    (main sp { fs := fs1, cwd := c, out := [], net := [] }).1.out
      = (main sp { fs := fs2, cwd := c, out := [], net := [] }).1.out ∧
    (main sp { fs := fs1, cwd := c, out := [], net := [] }).2
      = (main sp { fs := fs2, cwd := c, out := [], net := [] }).2 ∧
    (main sp { fs := fs1, cwd := c, out := [], net := [] }).1.out
      = fullOutput fs1 (parentDir sp) := by
  have hfs : fs1 = fs2 := funext h
  subst hfs
  obtain ⟨-, -, -, h4, -⟩ := main_spec sp { fs := fs1, cwd := c, out := [], net := [] }
  exact ⟨rfl, rfl, by rw [h4]; rfl⟩

theorem main_deterministic_witness :
    (main "/r/verify.py"
        { fs := fun _ => EntryKind.absent, cwd := "/c", out := [], net := [] }).1.out
      = fullOutput (fun _ => EntryKind.absent) (parentDir "/r/verify.py") :=
  (main_deterministic "/r/verify.py" "/c" (fun _ => EntryKind.absent)
    (fun _ => EntryKind.absent) (fun _ => rfl)).2.2

/-- C7: the run resolves the working directory to the directory of the
script before any check, so the whole run is independent of the caller's
working directory and every manifest path is checked against that base
directory. -/
theorem main_cwd_resolution (sp : String) (fs : FS) (c1 c2 : String) :
    main sp { fs := fs, cwd := c1, out := [], net := [] }
      = main sp { fs := fs, cwd := c2, out := [], net := [] } ∧
    (runState sp { fs := fs, cwd := c1, out := [], net := [] }).w.cwd = parentDir sp ∧
    (runState sp { fs := fs, cwd := c1, out := [], net := [] }).checked_files
      = passedCount fs (parentDir sp) := by
  obtain ⟨a1, a2, a3, a4, a5⟩ := main_spec sp { fs := fs, cwd := c1, out := [], net := [] }
  obtain ⟨b1, b2, b3, b4, b5⟩ := main_spec sp { fs := fs, cwd := c2, out := [], net := [] }
  obtain ⟨-, r2, -, -, -, r6, -⟩ := runState_spec sp { fs := fs, cwd := c1, out := [], net := [] }
  refine ⟨?_, r2, r6⟩
  have hw : (main sp { fs := fs, cwd := c1, out := [], net := [] }).1
      = (main sp { fs := fs, cwd := c2, out := [], net := [] }).1 := by
    apply World.ext
    · exact a1.trans b1.symm
    · exact a2.trans b2.symm
    · exact a4.trans b4.symm
    · exact a3.trans b3.symm
  exact Prod.ext hw (a5.trans b5.symm)

/-- C8: the checks are total and fail closed: an entry the operating
system cannot examine is reported missing rather than raising, every one
of the 36 manifest entries is attempted whatever the filesystem state,
and the full per-entry output is produced regardless of failures. -/
theorem checks_fail_closed (w : World) (p n : String) (sp : String) (w0 : World) :
    (w.fs (resolve w.cwd p) = EntryKind.inaccessible →
      (check_file w p n).2 = false ∧ (check_dir w p n).2 = false) ∧
    (runState sp w0).total_files = 36 ∧
    (main sp w0).1.out = w0.out ++ fullOutput w0.fs (parentDir sp) := by
  refine ⟨fun h => ?_, ?_, (main_spec sp w0).2.2.2.1⟩
  · rw [check_file_eq, check_dir_eq]
    simp [isfile, isdir, h]
  · obtain ⟨-, -, -, -, h5, -, -⟩ := runState_spec sp w0
    rw [h5]
    rfl

theorem checks_fail_closed_witness :
    ((fun _ => EntryKind.inaccessible : FS) (resolve "/b" "README.md")
        = EntryKind.inaccessible) ∧
    ((check_file { fs := fun _ => EntryKind.inaccessible, cwd := "/b", out := [], net := [] }
        "README.md" "README").2 = false ∧
     (check_dir { fs := fun _ => EntryKind.inaccessible, cwd := "/b", out := [], net := [] }
        "README.md" "README").2 = false) :=
  ⟨rfl,
    (checks_fail_closed
      { fs := fun _ => EntryKind.inaccessible, cwd := "/b", out := [], net := [] }
      "README.md" "README" "/r/verify.py"
      { fs := fun _ => EntryKind.inaccessible, cwd := "/b", out := [], net := [] }).1 rfl⟩

/-- C9: frame property — a run leaves the state of every path unchanged
and issues no network request; console output is the only effect. -/
theorem main_frame (sp : String) (w0 : World) :
    (∀ p, (main sp w0).1.fs p = w0.fs p) ∧ (main sp w0).1.net = w0.net := by
  obtain ⟨h1, -, h3, -, -⟩ := main_spec sp w0
  exact ⟨fun p => by rw [h1], h3⟩

/-- Loop invariant of `main`'s tally: the passed counter never exceeds
the processed counter, and `all_passed` holds exactly when the two
coincide, i.e. when every entry processed so far was found. -/
def AccInv (a : Acc) : Prop :=
  a.checked_files ≤ a.total_files ∧
    (a.all_passed = true ↔ a.checked_files = a.total_files)

theorem processEntry_step (check : World → String → String → World × Bool)
    (a : Acc) (e : String × String) :
    (processEntry check a e).total_files = a.total_files + 1 ∧
    (((processEntry check a e).all_passed = a.all_passed ∧
        (processEntry check a e).checked_files = a.checked_files + 1) ∨
      ((processEntry check a e).all_passed = false ∧
        (processEntry check a e).checked_files = a.checked_files)) := by
  simp only [processEntry]
  cases hr : (check { a with total_files := a.total_files + 1 }.w e.1 e.2).2 <;> simp [hr]

/-- A starting accumulator of `main`, before the first entry. -/
def startAcc (w : World) : Acc :=
  { w := w, all_passed := true, total_files := 0, checked_files := 0 }

/-- C10: each iteration of the entry loop preserves the invariant (which
the starting accumulator satisfies), increments `total_files` by exactly
one and `checked_files` by at most one, and the invariant holds of the
accumulator after the whole run. -/
theorem loop_invariant (check : World → String → String → World × Bool)
    (a : Acc) (e : String × String) (sp : String) (w0 : World) :
    (AccInv a → AccInv (processEntry check a e)) ∧
    (processEntry check a e).total_files = a.total_files + 1 ∧
    a.checked_files ≤ (processEntry check a e).checked_files ∧
    (processEntry check a e).checked_files ≤ a.checked_files + 1 ∧
    AccInv (startAcc w0) ∧
    AccInv (runState sp w0) := by
  have hrun : AccInv (runState sp w0) := by
    obtain ⟨-, -, -, -, h5, h6, h7⟩ := runState_spec sp w0
    obtain ⟨b1, b2⟩ := countP_le_manifest w0.fs (parentDir sp)
    constructor
    · rw [h5, h6]
      unfold passedCount totalCount
      omega
    · rw [h5, h6, h7]
      exact allFound_iff_passedCount w0.fs (parentDir sp)
  obtain ⟨ht, hcases⟩ := processEntry_step check a e
  refine ⟨fun hInv => ?_, ht, ?_, ?_, ⟨by simp [startAcc], by simp [startAcc]⟩, hrun⟩
  · unfold AccInv at hInv ⊢
    rcases hcases with ⟨hap, hck⟩ | ⟨hap, hck⟩
    · rw [ht, hck, hap]
      refine ⟨by omega, ?_⟩
      rw [hInv.2]
      omega
    · rw [ht, hck, hap]
      have hle := hInv.1
      refine ⟨by omega, ?_⟩
      simp only [Bool.false_eq_true, false_iff]
      omega
  · rcases hcases with ⟨-, hck⟩ | ⟨-, hck⟩ <;> omega
  · rcases hcases with ⟨-, hck⟩ | ⟨-, hck⟩ <;> omega

theorem loop_invariant_witness :
    AccInv (startAcc { fs := fun _ => EntryKind.absent, cwd := "/b", out := [], net := [] }) ∧
    AccInv (processEntry check_file
      (startAcc { fs := fun _ => EntryKind.absent, cwd := "/b", out := [], net := [] })
      ("README.md", "README")) :=
  ⟨⟨by simp [startAcc], by simp [startAcc]⟩,
    (loop_invariant check_file
      (startAcc { fs := fun _ => EntryKind.absent, cwd := "/b", out := [], net := [] })
      ("README.md", "README") "/r/verify.py"
      { fs := fun _ => EntryKind.absent, cwd := "/b", out := [], net := [] }).1
      ⟨by simp [startAcc], by simp [startAcc]⟩⟩

end Verify
